import Mathlib

/-!
# Mobile measured-template placement: a shallow embedding

This file embeds the placement interaction state machine of
`src/template.js` (classes `MobileAbilityTemplate` and `MobileTemplateLayer`)
and proves the specified properties about it.

External collaborators (grid snapping, viewport pivot, document persistence)
are modelled as parameters of a `Host` structure; coordinates and angles are
idealised as real numbers; timestamps (`Date.now()`) are integers in
milliseconds.
-/

namespace MobileTemplate

/-- The bound handler references stored in the session's `#events` bundle
(plus the statically bound `_onTouchStart`).  Each constructor stands for a
distinct function reference, so registration and deregistration by reference
can be modelled exactly. -/
inductive HandlerId
  | move
  | confirm
  | cancel
  | rotate
  | touchstart
  deriving DecidableEq, Repr

/-- The preview's template document: position, rotation (degrees, the
`direction` field) and shape kind (the `t` field: `"circle"`, `"cone"`,
`"ray"`, `"rect"`). -/
structure TemplateDoc where
  x : ℝ
  y : ℝ
  direction : ℝ
  t : String

/-- Atomic effects recorded in arrival order, used to state ordering
properties of the termination and confirmation sequences. -/
inductive Action
  | dragLeftCancel
  | offMousemove
  | offMousedown
  | offTouchstart
  | hideConfirmUI
  | clearContextmenu
  | clearWheel
  | activateInitialLayer
  | maximizeSheet
  | refresh
  | snapFinal
  | persistCall
  | settled
  deriving DecidableEq, Repr

/-- Registration state of the device event sources the session touches:
the PIXI stage listener list (event name, handler reference), the two
DOM on-properties of the canvas view, and the document-level `touchmove`
rotation listener installed once by `_mobileConfirmationListeners`. -/
structure ListenerState where
  stage : List (String × HandlerId)
  oncontextmenu : Option HandlerId
  onwheel : Option HandlerId
  docRotateListener : Bool
  deriving DecidableEq, Repr

/-- Models `canvas.stage.on(name, handler)`: appends a listener. -/
def stageOn (l : List (String × HandlerId)) (n : String) (h : HandlerId) :
    List (String × HandlerId) :=
  l ++ [(n, h)]

/-- Models `canvas.stage.off(name, handler)`: removes the listeners registered for
that event name with that function reference; removing a pair that was never
registered is a no-op. -/
def stageOff (l : List (String × HandlerId)) (n : String) (h : HandlerId) :
    List (String × HandlerId) :=
  l.filter fun p => !(p.1 == n && p.2 == h)

/-- The one-shot settlement state of the promise returned by
`activatePreviewListeners`.  Creation results and error payloads are
abstracted as naturals. -/
inductive Settlement
  | pending
  | fulfilled (v : ℕ)
  | rejectedNone
  | rejectedErr (e : ℕ)
  deriving DecidableEq, Repr

/-- A promise settles at most once: a later settlement attempt on an
already-settled promise changes nothing. -/
def Settlement.settleWith : Settlement → Settlement → Settlement
  | .pending, v => v
  | o, _ => o

/-- Resolving the outer promise with the persistence promise makes the outer
promise adopt its state: fulfilment with the created entities, or rejection
with the persistence error, unmodified. -/
def adopt : Except ℕ ℕ → Settlement
  | .ok v => .fulfilled v
  | .error e => .rejectedErr e

/-- The external collaborators: the grid-snapping service, whether the grid
is gridless, the viewport pivot, and the document-creation service (the
outcome of `createEmbeddedDocuments` on a given document). -/
structure Host where
  snap : ℝ → ℝ → ℕ → ℝ × ℝ
  gridless : Bool
  pivot : ℝ × ℝ
  persist : TemplateDoc → Except ℕ ℕ

/-- Models `canvas.grid.type === CONST.GRID_TYPES.GRIDLESS ? 0 : 2`. -/
def interval (host : Host) : ℕ :=
  if host.gridless then 0 else 2

/-- The whole mutable state owned by one placement session. -/
structure SessionState where
  listeners : ListenerState
  mobileConfirmActive : Bool
  doc : TemplateDoc
  moveTime : ℤ
  outcome : Settlement
  log : List Action

/-- Embeds `_centerTemplateOnScreen`: translate the preview by half its document
coordinate away from the stage pivot, then refresh. -/
noncomputable def centerTemplateOnScreen (host : Host) (s : SessionState) :
    SessionState :=
  let x := host.pivot.1 - s.doc.x / 2
  let y := host.pivot.2 - s.doc.y / 2
  { s with doc := { s.doc with x := x, y := y }, log := s.log ++ [.refresh] }

/-- Embeds `activatePreviewListeners(initialLayer)`: bind the four logical handlers
and `_onTouchStart`, attach them to their device event sources, show the
mobile confirmation toggle, install the one-time document rotation listener,
and centre the preview.  The returned promise starts pending. -/
noncomputable def activatePreviewListeners (host : Host) (doc : TemplateDoc) :
    SessionState :=
  let s : SessionState :=
    { listeners :=
        { stage := stageOn (stageOn (stageOn [] "pointermove" .move)
            "mousedown" .confirm) "touchstart" .touchstart
          oncontextmenu := some .cancel
          onwheel := some .rotate
          docRotateListener := true }
      mobileConfirmActive := true
      doc := doc
      moveTime := 0
      outcome := .pending
      log := [] }
  centerTemplateOnScreen host s

/-- A pointer-move event: its `Date.now()` timestamp and the local position
`event.data.getLocalPosition(this.layer)` computed by the host. -/
structure MoveEvent where
  now : ℤ
  localX : ℝ
  localY : ℝ

/-- Embeds `_onMovePlacement`: 20 ms throttle, then snap the local position through
the grid service, update the preview, refresh, and record the timestamp. -/
def onMovePlacement (host : Host) (s : SessionState) (e : MoveEvent) :
    SessionState :=
  if e.now - s.moveTime ≤ 20 then s
  else
    let snapped := host.snap e.localX e.localY (interval host)
    { s with
      doc := { s.doc with x := snapped.1, y := snapped.2 }
      log := s.log ++ [.refresh]
      moveTime := e.now }

/-- Modelled from the spec: the wheel-rotation handler `_onRotatePlacement`
is inherited from the host's `AbilityTemplate` class and is not part of this
repository's source; per the spec, rotate sets the preview's rotation
directly to the provided absolute value and requests a refresh, with no
throttling. -/
def onRotatePlacement (s : SessionState) (degrees : ℝ) : SessionState :=
  { s with doc := { s.doc with direction := degrees }, log := s.log ++ [.refresh] }

/-- The effects of `_finishPlacement` in source order. -/
def finishLog : List Action :=
  [.dragLeftCancel, .offMousemove, .offMousedown, .offTouchstart,
   .hideConfirmUI, .clearContextmenu, .clearWheel, .activateInitialLayer,
   .maximizeSheet]

/-- Embeds `_finishPlacement`: cancel the layer drag, detach (`off`) the
`'mousemove'`, `'mousedown'` and `'touchstart'` stage listeners, hide the
confirmation toggle, clear the context-menu and wheel overrides, reactivate
the initial layer and restore the actor sheet.  (Note the source detaches
`'mousemove'` although the move handler was attached to `'pointermove'`.) -/
def finishPlacement (s : SessionState) : SessionState :=
  let l1 := stageOff s.listeners.stage "mousemove" .move
  let l2 := stageOff l1 "mousedown" .confirm
  let l3 := stageOff l2 "touchstart" .touchstart
  { s with
    listeners :=
      { s.listeners with stage := l3, oncontextmenu := none, onwheel := none }
    mobileConfirmActive := false
    log := s.log ++ finishLog }

/-- The document as it stands when `_onConfirmPlacement` persists it: the
current preview coordinates passed once more through the grid service. -/
def confirmedDoc (host : Host) (s : SessionState) : TemplateDoc :=
  let snapped := host.snap s.doc.x s.doc.y (interval host)
  { s.doc with x := snapped.1, y := snapped.2 }

/-- Embeds `_onConfirmPlacement`: await `_finishPlacement`, recompute the final
snapped position from the preview's current coordinates, apply it, then
resolve the pending promise with the `createEmbeddedDocuments` call — the
outer promise adopts the persistence outcome. -/
def onConfirmPlacement (host : Host) (s : SessionState) : SessionState :=
  let s1 := finishPlacement s
  let d := confirmedDoc host s1
  let s2 : SessionState := { s1 with doc := d, log := s1.log ++ [Action.snapFinal] }
  { s2 with
    outcome := s2.outcome.settleWith (adopt (host.persist d))
    log := s2.log ++ [Action.persistCall, Action.settled] }

/-- A DOM event, carrying only its default-prevented flag. -/
structure DomEvent where
  defaultPrevented : Bool
  deriving DecidableEq, Repr

/-- Embeds `_onCancelPlacement`: await `_finishPlacement`, then reject the pending
promise with no payload.  The handler body never calls
`event.preventDefault()`, so the event is returned unchanged. -/
def onCancelPlacement (s : SessionState) (ev : DomEvent) :
    SessionState × DomEvent :=
  let s1 := finishPlacement s
  (({ s1 with
      outcome := s1.outcome.settleWith Settlement.rejectedNone
      log := s1.log ++ [Action.settled] } : SessionState), ev)

/-- The value an on-property event handler hands back to the DOM dispatcher. -/
inductive HandlerRet
  | promiseVal
  | boolFalse
  | other
  deriving DecidableEq, Repr

/-- Only an explicit `false` return value cancels the default action. -/
def retIsFalse : HandlerRet → Bool
  | .boolFalse => true
  | _ => false

/-- Dispatching a `contextmenu` DOM event on the canvas view element.
Returns (new state, whether the cancel handler ran, whether the native menu
was prevented).  Per the DOM on-property contract the default action is
prevented iff the handler calls `preventDefault` on the event or returns the
literal `false`; `_onCancelPlacement` is `async`, so it returns a Promise
object, which is not `false`. -/
def dispatchContextmenu (s : SessionState) (ev : DomEvent) :
    SessionState × Bool × Bool :=
  match s.listeners.oncontextmenu with
  | some HandlerId.cancel =>
    let r := onCancelPlacement s ev
    (r.1, true, r.2.defaultPrevented || retIsFalse HandlerRet.promiseVal)
  | some _ => (s, false, ev.defaultPrevented)
  | none => (s, false, ev.defaultPrevented)

/-- The stage listener list as `activatePreviewListeners` leaves it. -/
def startStage : List (String × HandlerId) :=
  [("pointermove", .move), ("mousedown", .confirm), ("touchstart", .touchstart)]

/-- The full listener state as `activatePreviewListeners` leaves it. -/
def startListeners : ListenerState :=
  { stage := startStage
    oncontextmenu := some .cancel
    onwheel := some .rotate
    docRotateListener := true }

/-- No registered handler can reach a terminal path: the stage holds neither
the confirm nor the cancel reference and both on-properties are cleared. -/
def cleanListeners (l : ListenerState) : Prop :=
  (∀ p ∈ l.stage, p.2 ≠ HandlerId.confirm ∧ p.2 ≠ HandlerId.cancel) ∧
  l.oncontextmenu = none ∧ l.onwheel = none

/-- The session invariant: either the session is still active, with the
pending outcome and exactly the listeners installed at start, or the
terminal handlers have been deregistered. -/
def SessionInv (s : SessionState) : Prop :=
  (s.outcome = Settlement.pending ∧ s.listeners = startListeners) ∨
    cleanListeners s.listeners

/-- JavaScript's `Math.atan2(y, x)`: the angle, in radians in (−π, π], of the
point (x, y) from the positive x-axis. -/
noncomputable def atan2 (y x : ℝ) : ℝ :=
  if 0 < x then Real.arctan (y / x)
  else if x < 0 then
    (if 0 ≤ y then Real.arctan (y / x) + Real.pi
     else Real.arctan (y / x) - Real.pi)
  else
    (if 0 < y then Real.pi / 2
     else if y < 0 then -(Real.pi / 2)
     else 0)

/-- One active touch point, by its client coordinates. -/
structure Touch where
  clientX : ℝ
  clientY : ℝ

/-- A `touchmove` event: the list of currently active touch points. -/
structure TouchEvent where
  touches : List Touch

/-- The shape kinds eligible for the touch rotation gesture. -/
def allowedTypes : List String := ["cone", "ray"]

/-- Embeds `_onTouchRotate`, acting on `canvas.templates.preview.children`: admitted
only with exactly two active touches, a non-empty preview container, and a
rotation-eligible shape kind; otherwise it returns before
`event.preventDefault()` and changes nothing.  When admitted it sets the
head preview's rotation to `atan2(dy, dx) * 180 / π` and refreshes.  The
returned flag records whether `preventDefault` was called. -/
noncomputable def onTouchRotate (children : List TemplateDoc) (ev : TouchEvent) :
    List TemplateDoc × Bool :=
  if ev.touches.length != 2 || children.length == 0 then (children, false)
  else
    match children, ev.touches with
    | p :: rest, t1 :: t2 :: _ =>
      if !(allowedTypes.contains p.t) then (p :: rest, false)
      else
        let dx := t2.clientX - t1.clientX
        let dy := t2.clientY - t1.clientY
        let angle := atan2 dy dx
        let rotation := angle * (180 / Real.pi)
        (({ p with direction := rotation } : TemplateDoc) :: rest, true)
    | _, _ => (children, false)

/-- A device input event reaching the session's registered handlers: a PIXI
stage event with its name and payload, a `contextmenu` event on the canvas
view, or a wheel event carrying the rotation it maps to. -/
inductive InputEvent
  | stage (name : String) (me : MoveEvent)
  | contextmenu (ev : DomEvent)
  | wheel (degrees : ℝ)

/-- Run one stage handler by its bound reference.  `rotate` is never
attached to the stage (it is the wheel on-property) and `_onTouchStart` only
stops propagation, so both leave the session state unchanged. -/
noncomputable def fireStage (host : Host) (me : MoveEvent) (s : SessionState)
    (h : HandlerId) : SessionState :=
  match h with
  | .move => onMovePlacement host s me
  | .confirm => onConfirmPlacement host s
  | .cancel => (onCancelPlacement s ⟨false⟩).1
  | .rotate => s
  | .touchstart => s

/-- Deliver one device event: a stage event fires, in registration order,
every listener registered under its name; the on-property events fire their
assigned handler if any. -/
noncomputable def dispatch (host : Host) (s : SessionState) (e : InputEvent) :
    SessionState :=
  match e with
  | .stage n me =>
    ((s.listeners.stage.filter fun p => p.1 == n).map Prod.snd).foldl
      (fireStage host me) s
  | .contextmenu ev => (dispatchContextmenu s ev).1
  | .wheel degrees =>
    match s.listeners.onwheel with
    | some HandlerId.rotate => onRotatePlacement s degrees
    | some _ => s
    | none => s

/-- Deliver a list of device events in order. -/
noncomputable def run (host : Host) (s : SessionState) (es : List InputEvent) :
    SessionState :=
  es.foldl (dispatch host) s

lemma activate_listeners (host : Host) (doc : TemplateDoc) :
    (activatePreviewListeners host doc).listeners = startListeners := rfl

lemma activate_outcome (host : Host) (doc : TemplateDoc) :
    (activatePreviewListeners host doc).outcome = Settlement.pending := rfl

lemma mem_of_mem_stageOff {l : List (String × HandlerId)} {n : String}
    {h : HandlerId} {p : String × HandlerId} (hp : p ∈ stageOff l n h) :
    p ∈ l :=
  (List.mem_filter.mp hp).1

lemma finishPlacement_doc (s : SessionState) :
    (finishPlacement s).doc = s.doc := rfl

lemma finishPlacement_oncontextmenu (s : SessionState) :
    (finishPlacement s).listeners.oncontextmenu = none := rfl

lemma finishPlacement_onwheel (s : SessionState) :
    (finishPlacement s).listeners.onwheel = none := rfl

lemma finishPlacement_stage_subset (s : SessionState)
    {p : String × HandlerId} (hp : p ∈ (finishPlacement s).listeners.stage) :
    p ∈ s.listeners.stage :=
  mem_of_mem_stageOff (mem_of_mem_stageOff (mem_of_mem_stageOff hp))

/-- On the listener state installed at start, `_finishPlacement` leaves
exactly the (never-deregistered) `'pointermove'` move listener behind. -/
lemma finishPlacement_stage_of_start (s : SessionState)
    (h : s.listeners = startListeners) :
    (finishPlacement s).listeners.stage = [("pointermove", HandlerId.move)] := by
  show stageOff (stageOff (stageOff s.listeners.stage "mousemove" .move)
      "mousedown" .confirm) "touchstart" .touchstart = _
  rw [h]
  rfl

lemma clean_finishPlacement_of_start (s : SessionState)
    (h : s.listeners = startListeners) :
    cleanListeners (finishPlacement s).listeners := by
  refine ⟨?_, rfl, rfl⟩
  rw [finishPlacement_stage_of_start s h]
  intro p hp
  rcases List.mem_singleton.mp hp with rfl
  exact ⟨by simp, by simp⟩

lemma clean_finishPlacement_of_clean (s : SessionState)
    (h : cleanListeners s.listeners) :
    cleanListeners (finishPlacement s).listeners := by
  refine ⟨?_, rfl, rfl⟩
  intro p hp
  exact h.1 p (finishPlacement_stage_subset s hp)

lemma onConfirm_listeners (host : Host) (s : SessionState) :
    (onConfirmPlacement host s).listeners = (finishPlacement s).listeners := rfl

lemma onCancel_listeners (s : SessionState) (ev : DomEvent) :
    ((onCancelPlacement s ev).1).listeners = (finishPlacement s).listeners := rfl

lemma onMove_listeners (host : Host) (s : SessionState) (e : MoveEvent) :
    (onMovePlacement host s e).listeners = s.listeners := by
  unfold onMovePlacement
  split <;> rfl

lemma onMove_outcome (host : Host) (s : SessionState) (e : MoveEvent) :
    (onMovePlacement host s e).outcome = s.outcome := by
  unfold onMovePlacement
  split <;> rfl

lemma onRotate_listeners (s : SessionState) (degrees : ℝ) :
    (onRotatePlacement s degrees).listeners = s.listeners := rfl

lemma onRotate_outcome (s : SessionState) (degrees : ℝ) :
    (onRotatePlacement s degrees).outcome = s.outcome := rfl

lemma confirm_inv (host : Host) (s : SessionState) (h : SessionInv s) :
    cleanListeners (onConfirmPlacement host s).listeners := by
  rw [onConfirm_listeners]
  rcases h with ⟨_, hl⟩ | hclean
  · exact clean_finishPlacement_of_start s hl
  · exact clean_finishPlacement_of_clean s hclean

lemma cancel_inv (s : SessionState) (ev : DomEvent) (h : SessionInv s) :
    cleanListeners ((onCancelPlacement s ev).1).listeners := by
  rw [onCancel_listeners]
  rcases h with ⟨_, hl⟩ | hclean
  · exact clean_finishPlacement_of_start s hl
  · exact clean_finishPlacement_of_clean s hclean

lemma fireStage_inv (host : Host) (me : MoveEvent) (h : HandlerId)
    (s : SessionState) (hs : SessionInv s) :
    SessionInv (fireStage host me s h) := by
  cases h with
  | move =>
    rcases hs with ⟨ho, hl⟩ | hclean
    · exact Or.inl ⟨by rw [fireStage, onMove_outcome]; exact ho,
        by rw [fireStage, onMove_listeners]; exact hl⟩
    · exact Or.inr (by rw [fireStage, onMove_listeners]; exact hclean)
  | confirm => exact Or.inr (confirm_inv host s hs)
  | cancel => exact Or.inr (cancel_inv s ⟨false⟩ hs)
  | rotate => exact hs
  | touchstart => exact hs

lemma foldl_fireStage_inv (host : Host) (me : MoveEvent) :
    ∀ (hs : List HandlerId) (s : SessionState), SessionInv s →
      SessionInv (hs.foldl (fireStage host me) s) := by
  intro hs
  induction hs with
  | nil => intro s h; exact h
  | cons hd tl ih =>
    intro s h
    exact ih (fireStage host me s hd) (fireStage_inv host me hd s h)

lemma dispatch_inv (host : Host) (s : SessionState) (e : InputEvent)
    (h : SessionInv s) : SessionInv (dispatch host s e) := by
  cases e with
  | stage n me => exact foldl_fireStage_inv host me _ s h
  | contextmenu ev =>
    show SessionInv (dispatchContextmenu s ev).1
    unfold dispatchContextmenu
    rcases hoc : s.listeners.oncontextmenu with _ | hid
    · exact h
    · cases hid with
      | cancel => exact Or.inr (cancel_inv s ev h)
      | move => exact h
      | confirm => exact h
      | rotate => exact h
      | touchstart => exact h
  | wheel degrees =>
    show SessionInv (match s.listeners.onwheel with
      | some HandlerId.rotate => onRotatePlacement s degrees
      | some _ => s
      | none => s)
    rcases hw : s.listeners.onwheel with _ | hid
    · exact h
    · cases hid with
      | rotate =>
        rcases h with ⟨ho, hl⟩ | hclean
        · exact Or.inl ⟨by rw [onRotate_outcome]; exact ho,
            by rw [onRotate_listeners]; exact hl⟩
        · exact Or.inr (by rw [onRotate_listeners]; exact hclean)
      | move => exact h
      | confirm => exact h
      | cancel => exact h
      | touchstart => exact h

lemma run_inv (host : Host) (es : List InputEvent) :
    ∀ s : SessionState, SessionInv s → SessionInv (run host s es) := by
  induction es with
  | nil => intro s h; exact h
  | cons e es ih =>
    intro s h
    exact ih (dispatch host s e) (dispatch_inv host s e h)

lemma fireStage_frozen (host : Host) (me : MoveEvent) (s : SessionState)
    (h : HandlerId) (hc : h ≠ HandlerId.confirm) (hx : h ≠ HandlerId.cancel) :
    (fireStage host me s h).outcome = s.outcome ∧
      (fireStage host me s h).listeners = s.listeners := by
  cases h with
  | move => exact ⟨onMove_outcome host s me, onMove_listeners host s me⟩
  | confirm => exact absurd rfl hc
  | cancel => exact absurd rfl hx
  | rotate => exact ⟨rfl, rfl⟩
  | touchstart => exact ⟨rfl, rfl⟩

lemma foldl_fireStage_frozen (host : Host) (me : MoveEvent) :
    ∀ (hs : List HandlerId) (s : SessionState),
      (∀ h ∈ hs, h ≠ HandlerId.confirm ∧ h ≠ HandlerId.cancel) →
      (hs.foldl (fireStage host me) s).outcome = s.outcome ∧
        (hs.foldl (fireStage host me) s).listeners = s.listeners := by
  intro hs
  induction hs with
  | nil => intro s _; exact ⟨rfl, rfl⟩
  | cons hd tl ih =>
    intro s hmem
    have hhd := hmem hd (List.mem_cons_self hd tl)
    have h1 := fireStage_frozen host me s hd hhd.1 hhd.2
    have h2 := ih (fireStage host me s hd)
      (fun h hh => hmem h (List.mem_cons_of_mem hd hh))
    exact ⟨h2.1.trans h1.1, h2.2.trans h1.2⟩

lemma dispatch_frozen (host : Host) (s : SessionState) (e : InputEvent)
    (h : cleanListeners s.listeners) :
    (dispatch host s e).outcome = s.outcome ∧
      (dispatch host s e).listeners = s.listeners := by
  cases e with
  | stage n me =>
    refine foldl_fireStage_frozen host me _ s ?_
    intro hd hmem
    rcases List.mem_map.mp hmem with ⟨p, hp, rfl⟩
    exact h.1 p (List.mem_filter.mp hp).1
  | contextmenu ev =>
    show ((dispatchContextmenu s ev).1.outcome = s.outcome ∧
      (dispatchContextmenu s ev).1.listeners = s.listeners)
    unfold dispatchContextmenu
    rw [h.2.1]
    exact ⟨rfl, rfl⟩
  | wheel degrees =>
    show ((match s.listeners.onwheel with
      | some HandlerId.rotate => onRotatePlacement s degrees
      | some _ => s
      | none => s).outcome = s.outcome ∧
      (match s.listeners.onwheel with
      | some HandlerId.rotate => onRotatePlacement s degrees
      | some _ => s
      | none => s).listeners = s.listeners)
    rw [h.2.2]
    exact ⟨rfl, rfl⟩

lemma run_frozen (host : Host) (es : List InputEvent) :
    ∀ s : SessionState, cleanListeners s.listeners →
      (run host s es).outcome = s.outcome ∧
        (run host s es).listeners = s.listeners := by
  induction es with
  | nil => intro s _; exact ⟨rfl, rfl⟩
  | cons e es ih =>
    intro s h
    have h1 := dispatch_frozen host s e h
    have h2 := ih (dispatch host s e) (by rw [h1.2]; exact h)
    exact ⟨h2.1.trans h1.1, h2.2.trans h1.2⟩

lemma atan2_zero_ten : atan2 0 10 = 0 := by
  unfold atan2
  rw [if_pos (by norm_num : (0:ℝ) < 10)]
  norm_num [Real.arctan_zero]

lemma atan2_ten_zero : atan2 10 0 = Real.pi / 2 := by
  unfold atan2
  rw [if_neg (by norm_num), if_neg (by norm_num),
    if_pos (by norm_num : (0:ℝ) < 10)]

lemma pi_half_mul_deg : Real.pi / 2 * (180 / Real.pi) = 90 := by
  have h : Real.pi ≠ 0 := Real.pi_ne_zero
  field_simp
  ring

/-- Deliver a list of move events in sequence, also returning, per event,
whether it was accepted and produced a position update (observable as the
refresh it appends to the effect log). -/
noncomputable def runMovesFlags (host : Host) :
    SessionState → List MoveEvent → SessionState × List Bool
  | s, [] => (s, [])
  | s, e :: es =>
    let s1 := onMovePlacement host s e
    let r := runMovesFlags host s1 es
    (r.1, (s1.log.length != s.log.length) :: r.2)

/-- A concrete host: an identity snapping service, a square grid, the origin
pivot, and a persistence service that fulfils with entity 7. -/
noncomputable def host0 : Host :=
  { snap := fun x y _ => (x, y)
    gridless := false
    pivot := (0, 0)
    persist := fun _ => .ok 7 }

/-- Variant of `host0` with a persistence service that always fails with error 3. -/
noncomputable def hostErr : Host :=
  { host0 with persist := fun _ => .error 3 }

/-- Variant of `host0` with the viewport pivot at (100, 100). -/
noncomputable def host100 : Host :=
  { host0 with pivot := (100, 100) }

/-- A concrete circle preview document. -/
noncomputable def doc0 : TemplateDoc :=
  { x := 10, y := 20, direction := 0, t := "circle" }

/-- A concrete cone preview document (rotation-eligible kind). -/
noncomputable def cone0 : TemplateDoc :=
  { x := 0, y := 0, direction := 45, t := "cone" }

/-- A concrete preview document at document coordinate (40, 60). -/
noncomputable def doc46 : TemplateDoc :=
  { x := 40, y := 60, direction := 0, t := "circle" }

/-- A freshly started session over `host0` and `doc0`. -/
noncomputable def started0 : SessionState := activatePreviewListeners host0 doc0

/-- A concrete mid-session state whose last accepted move was at t = 100. -/
noncomputable def stateA : SessionState :=
  { listeners := startListeners
    mobileConfirmActive := true
    doc := doc0
    moveTime := 100
    outcome := Settlement.pending
    log := [Action.refresh] }

/-- State of `started0` after a context-menu (cancel) event terminated it. -/
noncomputable def cancelled0 : SessionState :=
  run host0 started0 [InputEvent.contextmenu ⟨false⟩]

lemma onConfirm_outcome (host : Host) (s : SessionState) :
    (onConfirmPlacement host s).outcome
      = s.outcome.settleWith (adopt (host.persist (confirmedDoc host s))) := rfl

lemma onCancel_outcome (s : SessionState) (ev : DomEvent) :
    ((onCancelPlacement s ev).1).outcome
      = s.outcome.settleWith Settlement.rejectedNone := rfl

lemma onMove_drop (host : Host) (s : SessionState) (e : MoveEvent)
    (h : e.now - s.moveTime ≤ 20) : onMovePlacement host s e = s := by
  unfold onMovePlacement
  rw [if_pos h]

lemma onMove_accept_moveTime (host : Host) (s : SessionState) (e : MoveEvent)
    (h : 20 < e.now - s.moveTime) : (onMovePlacement host s e).moveTime = e.now := by
  unfold onMovePlacement
  rw [if_neg (not_le.mpr h)]

lemma onMove_accept_len (host : Host) (s : SessionState) (e : MoveEvent)
    (h : 20 < e.now - s.moveTime) :
    (onMovePlacement host s e).log.length = s.log.length + 1 := by
  unfold onMovePlacement
  rw [if_neg (not_le.mpr h)]
  simp

/-- The touch rotation handler's admission guard: with fewer or more than
two touches, or an empty preview container, it returns unchanged before
calling `preventDefault`. -/
lemma onTouchRotate_guard (children : List TemplateDoc) (ev : TouchEvent)
    (h : ev.touches.length ≠ 2 ∨ children = []) :
    onTouchRotate children ev = (children, false) := by
  rcases h with h | rfl
  · unfold onTouchRotate
    have hb : (ev.touches.length != 2 || children.length == 0) = true := by
      simp [h]
    rw [hb]
    rfl
  · unfold onTouchRotate
    have hb : (ev.touches.length != 2
        || ([] : List TemplateDoc).length == 0) = true := by simp
    rw [hb]
    rfl

/-- When admitted (two touches, non-empty container, eligible kind), the
touch rotation handler sets the head preview's rotation to
`atan2(dy, dx) * 180 / π` and reports the event as prevented. -/
lemma onTouchRotate_admitted (p : TemplateDoc) (rest : List TemplateDoc)
    (t1 t2 : Touch) (h : allowedTypes.contains p.t = true) :
    onTouchRotate (p :: rest) ⟨[t1, t2]⟩
      = (({ p with direction := atan2 (t2.clientY - t1.clientY) (t2.clientX - t1.clientX) * (180 / Real.pi) } : TemplateDoc) :: rest,
         true) := by
  have hm : p.t ∈ allowedTypes := by simpa using h
  simp [onTouchRotate, h, hm]

end MobileTemplate

namespace MobileTemplateLayer

open MobileTemplate

/-- A left-drag interaction event as seen by the template layer: the pointer
type of the originating device event and the `interactionData.preview`
slot. -/
structure DragEvent where
  pointerType : String
  interactionDataPreview : Option TemplateDoc

/-- Embeds `MobileTemplateLayer._onDragLeftStart`: when a preview exists and the
event is touch-sourced, stash the preview on the interaction data and return
without calling `super` (suppressing the native handling, flag `true`);
otherwise defer to `super._onDragLeftStart` unchanged (flag `false`). -/
def onDragLeftStart (preview : Option TemplateDoc) (ev : DragEvent) :
    DragEvent × Bool :=
  match preview with
  | some p =>
    if ev.pointerType == "touch" then
      (({ ev with interactionDataPreview := some p } : DragEvent), true)
    else (ev, false)
  | none => (ev, false)

/-- Embeds `MobileTemplateLayer._onDragLeftMove`: returns early (suppressing the
native handling) exactly when the event is touch-sourced; the body never
consults the preview container. -/
def onDragLeftMove (_preview : Option TemplateDoc) (ev : DragEvent) : Bool :=
  ev.pointerType == "touch"

/-- Embeds `MobileTemplateLayer._onDragLeftCancel`: returns early (suppressing the
native handling) exactly when the event is touch-sourced; the body never
consults the preview container. -/
def onDragLeftCancel (_preview : Option TemplateDoc) (ev : DragEvent) : Bool :=
  ev.pointerType == "touch"

end MobileTemplateLayer

open MobileTemplate MobileTemplateLayer

/-- C2: for every session, the pending outcome handle created by
`activatePreviewListeners` is settled by exactly one of confirm and cancel:
once any event sequence has settled it (`outcome ≠ pending`), the terminal
handlers are deregistered (`cleanListeners`) and no further event sequence
can change the settlement — the other terminal path can never fire. -/
theorem claim2_single_settlement (host : Host) (doc : TemplateDoc)
    (es1 es2 : List InputEvent)
    (h : (run host (activatePreviewListeners host doc) es1).outcome
      ≠ Settlement.pending) :
    cleanListeners (run host (activatePreviewListeners host doc) es1).listeners ∧
    (run host (run host (activatePreviewListeners host doc) es1) es2).outcome
      = (run host (activatePreviewListeners host doc) es1).outcome := by
  have hstart : SessionInv (activatePreviewListeners host doc) :=
    Or.inl ⟨activate_outcome host doc, activate_listeners host doc⟩
  have hinv := run_inv host es1 _ hstart
  rcases hinv with ⟨hp, _⟩ | hclean
  · exact absurd hp h
  · exact ⟨hclean, (run_frozen host es2 _ hclean).1⟩

/-- Witness for C2: a concrete session cancelled via the context menu is no
longer pending, and a later `mousedown` (the confirm source) cannot change
the settlement. -/
theorem claim2_witness :
    (run host0 (activatePreviewListeners host0 doc0)
        [InputEvent.contextmenu ⟨false⟩]).outcome ≠ Settlement.pending ∧
    (run host0 (run host0 (activatePreviewListeners host0 doc0)
          [InputEvent.contextmenu ⟨false⟩])
        [InputEvent.stage "mousedown" ⟨1000, 0, 0⟩]).outcome
      = (run host0 (activatePreviewListeners host0 doc0)
          [InputEvent.contextmenu ⟨false⟩]).outcome := by
  have h0 : (run host0 (activatePreviewListeners host0 doc0)
      [InputEvent.contextmenu ⟨false⟩]).outcome = Settlement.rejectedNone := rfl
  have h : (run host0 (activatePreviewListeners host0 doc0)
      [InputEvent.contextmenu ⟨false⟩]).outcome ≠ Settlement.pending := by
    rw [h0]; exact fun hc => Settlement.noConfusion hc
  exact ⟨h, (claim2_single_settlement host0 doc0 _ _ h).2⟩

/-- C3: `confirm()` performs, in order, the full termination sequence, then
the final snap recomputed from the preview's current coordinates and applied
to the preview, then the persistence call, and only then the settlement of
the outcome, which adopts the result of that persistence call. -/
theorem claim3_confirm_sequence (host : Host) (s : SessionState) :
    (onConfirmPlacement host s).log
      = s.log ++ finishLog
          ++ [Action.snapFinal, Action.persistCall, Action.settled] ∧
    (onConfirmPlacement host s).doc = confirmedDoc host s ∧
    (onConfirmPlacement host s).outcome
      = s.outcome.settleWith (adopt (host.persist (confirmedDoc host s))) := by
  refine ⟨?_, rfl, rfl⟩
  show ((s.log ++ finishLog) ++ [Action.snapFinal])
      ++ [Action.persistCall, Action.settled] = _
  simp [List.append_assoc]

/-- C7: `cancel()` settles the failure path with no payload; a persistence
failure inside `confirm()` propagates through the same rejection channel
unmodified; a persistence success fulfils the outcome with exactly the
creation result — the outcome never resolves without it. -/
theorem claim7_rejection_channels (host : Host) (s : SessionState)
    (ev : DomEvent) (e v : ℕ) :
    (s.outcome = Settlement.pending →
      ((onCancelPlacement s ev).1).outcome = Settlement.rejectedNone) ∧
    (s.outcome = Settlement.pending →
      host.persist (confirmedDoc host s) = Except.error e →
      (onConfirmPlacement host s).outcome = Settlement.rejectedErr e) ∧
    (s.outcome = Settlement.pending →
      host.persist (confirmedDoc host s) = Except.ok v →
      (onConfirmPlacement host s).outcome = Settlement.fulfilled v) := by
  refine ⟨?_, ?_, ?_⟩
  · intro hp
    rw [onCancel_outcome, hp]
    rfl
  · intro hp hres
    rw [onConfirm_outcome, hp, hres]
    rfl
  · intro hp hres
    rw [onConfirm_outcome, hp, hres]
    rfl

/-- Witness for C7: on a freshly started session, cancel rejects with no
payload; confirming against a failing persistence service rejects with its
error 3 unmodified; confirming against `host0` fulfils with its entity 7. -/
theorem claim7_witness :
    ((onCancelPlacement started0 ⟨false⟩).1).outcome = Settlement.rejectedNone ∧
    (onConfirmPlacement hostErr started0).outcome = Settlement.rejectedErr 3 ∧
    (onConfirmPlacement host0 started0).outcome = Settlement.fulfilled 7 :=
  ⟨(claim7_rejection_channels hostErr started0 ⟨false⟩ 3 7).1 rfl,
   (claim7_rejection_channels hostErr started0 ⟨false⟩ 3 7).2.1 rfl rfl,
   (claim7_rejection_channels host0 started0 ⟨false⟩ 3 7).2.2 rfl rfl⟩

/-- C9: on session start the preview is centred by setting its position to
(pivot.x − x/2, pivot.y − y/2), followed by a visual refresh; with pivot
(100, 100) and document coordinate (40, 60) this yields (80, 70). -/
theorem claim9_centering (host : Host) (doc : TemplateDoc) :
    (activatePreviewListeners host doc).doc.x = host.pivot.1 - doc.x / 2 ∧
    (activatePreviewListeners host doc).doc.y = host.pivot.2 - doc.y / 2 ∧
    (activatePreviewListeners host doc).log = [Action.refresh] ∧
    (host.pivot = (100, 100) → doc.x = 40 → doc.y = 60 →
      (activatePreviewListeners host doc).doc.x = 80 ∧
      (activatePreviewListeners host doc).doc.y = 70) := by
  refine ⟨rfl, rfl, rfl, ?_⟩
  intro hp hx hy
  constructor
  · show host.pivot.1 - doc.x / 2 = 80
    rw [hp, hx]
    norm_num
  · show host.pivot.2 - doc.y / 2 = 70
    rw [hp, hy]
    norm_num

/-- Witness for C9: the concrete pivot (100, 100) and document (40, 60). -/
theorem claim9_witness :
    (activatePreviewListeners host100 doc46).doc.x = 80 ∧
    (activatePreviewListeners host100 doc46).doc.y = 70 :=
  (claim9_centering host100 doc46).2.2.2 rfl rfl rfl

/-- C10: the globally registered touch-rotation handler is a no-op when the
preview container is empty or the touch count is not exactly two — it
changes nothing and does not prevent the event — and `_finishPlacement`
leaves the document-level rotation listener registered. -/
theorem claim10_rotate_guard :
    (∀ (children : List TemplateDoc) (ev : TouchEvent),
      ev.touches.length ≠ 2 ∨ children = [] →
        onTouchRotate children ev = (children, false)) ∧
    (∀ s : SessionState,
      (finishPlacement s).listeners.docRotateListener
        = s.listeners.docRotateListener) := by
  constructor
  · intro children ev h
    rcases h with h | rfl
    · unfold onTouchRotate
      rw [if_pos]
      simp [h]
    · unfold onTouchRotate
      rw [if_pos]
      simp
  · intro s
    rfl

/-- Witness for C10: an empty preview container is left untouched. -/
theorem claim10_witness : onTouchRotate [] ⟨[]⟩ = ([], false) :=
  claim10_rotate_guard.1 [] ⟨[]⟩ (Or.inr rfl)

/-- C1 (code bug): after termination the move handler is still registered —
the source attaches it to `'pointermove'` but detaches `'mousemove'` — so a
later pointer-move still mutates the preview's position, although the
confirmation toggle is off and the other handlers are gone.  Concretely:
after cancelling, the stage still holds the move listener and a pointer-move
at t = 1000 with local position (7, 8) moves the preview from x = −5 to
x = 7. -/
theorem claim1_move_listener_leak :
    cancelled0.listeners.stage = [("pointermove", HandlerId.move)] ∧
    cancelled0.mobileConfirmActive = false ∧
    cancelled0.outcome = Settlement.rejectedNone ∧
    cancelled0.doc.x = -5 ∧
    (dispatch host0 cancelled0
        (InputEvent.stage "pointermove" ⟨1000, 7, 8⟩)).doc.x = 7 := by
  refine ⟨rfl, rfl, rfl, ?_, ?_⟩
  · show (0 : ℝ) - 10 / 2 = -5
    norm_num
  · rfl

/-- C4 (amended): a move event is accepted, updating the snapped position,
the refresh log and the last-move timestamp, iff it arrives strictly more
than 20 ms after the last accepted move; events at most 20 ms later are
dropped without any state change.  For arrivals at S, S+5, S+25, S+30 after
a start (with clock S > 20), exactly the first and third produce updates. -/
theorem claim4_throttle :
    (∀ (host : Host) (s : SessionState) (e : MoveEvent),
      (e.now - s.moveTime ≤ 20 → onMovePlacement host s e = s) ∧
      (20 < e.now - s.moveTime →
        (onMovePlacement host s e).moveTime = e.now ∧
        (onMovePlacement host s e).doc.x
          = (host.snap e.localX e.localY (interval host)).1 ∧
        (onMovePlacement host s e).doc.y
          = (host.snap e.localX e.localY (interval host)).2 ∧
        (onMovePlacement host s e).log = s.log ++ [Action.refresh])) ∧
    (∀ (host : Host) (doc : TemplateDoc) (S : ℤ) (x y : ℝ), 20 < S →
      (runMovesFlags host (activatePreviewListeners host doc)
          [⟨S, x, y⟩, ⟨S + 5, x, y⟩, ⟨S + 25, x, y⟩, ⟨S + 30, x, y⟩]).2
        = [true, false, true, false]) := by
  constructor
  · intro host s e
    constructor
    · exact onMove_drop host s e
    · intro h
      unfold onMovePlacement
      rw [if_neg (not_le.mpr h)]
      exact ⟨rfl, rfl, rfl, rfl⟩
  · intro host doc S x y hS
    have hm0 : (activatePreviewListeners host doc).moveTime = 0 := rfl
    have hl0 : (activatePreviewListeners host doc).log.length = 1 := rfl
    have hacc1 : 20 < (⟨S, x, y⟩ : MoveEvent).now
        - (activatePreviewListeners host doc).moveTime := by
      rw [hm0]
      show 20 < S - 0
      omega
    have m1 := onMove_accept_moveTime host _ _ hacc1
    have l1 := onMove_accept_len host _ _ hacc1
    rw [hl0] at l1
    have hdrop2 : (⟨S + 5, x, y⟩ : MoveEvent).now
        - (onMovePlacement host (activatePreviewListeners host doc)
            ⟨S, x, y⟩).moveTime ≤ 20 := by
      rw [m1]
      show S + 5 - S ≤ 20
      omega
    have e2 := onMove_drop host _ _ hdrop2
    have hacc3 : 20 < (⟨S + 25, x, y⟩ : MoveEvent).now
        - (onMovePlacement host (activatePreviewListeners host doc)
            ⟨S, x, y⟩).moveTime := by
      rw [m1]
      show 20 < S + 25 - S
      omega
    have m3 := onMove_accept_moveTime host _ _ hacc3
    have l3 := onMove_accept_len host _ _ hacc3
    rw [l1] at l3
    have hdrop4 : (⟨S + 30, x, y⟩ : MoveEvent).now
        - (onMovePlacement host (onMovePlacement host
            (activatePreviewListeners host doc) ⟨S, x, y⟩)
            ⟨S + 25, x, y⟩).moveTime ≤ 20 := by
      rw [m3]
      show S + 30 - (S + 25) ≤ 20
      omega
    have e4 := onMove_drop host _ _ hdrop4
    simp [runMovesFlags, e2, e4, l1, l3, hl0]

/-- Counterexample for C4 as stated: an event arriving exactly 20 ms after
the last accepted move (moveTime 100, arrival 120) is dropped with no state
change, although the claim admits every event at least 20 ms later. -/
theorem claim4_counterexample :
    onMovePlacement host0 stateA ⟨120, 3, 4⟩ = stateA ∧
    (120 : ℤ) - stateA.moveTime = 20 :=
  ⟨rfl, rfl⟩

/-- Witness for C4: an event 1000 ms after start is accepted, and the
concrete arrival sequence [100, 105, 125, 130] gives exactly the updates
[true, false, true, false]. -/
theorem claim4_witness :
    (onMovePlacement host0 started0 ⟨1000, 1, 2⟩).moveTime = 1000 ∧
    (runMovesFlags host0 (activatePreviewListeners host0 doc0)
        [⟨100, 1, 2⟩, ⟨105, 1, 2⟩, ⟨125, 1, 2⟩, ⟨130, 1, 2⟩]).2
      = [true, false, true, false] := by
  constructor
  · exact ((claim4_throttle.1 host0 started0 ⟨1000, 1, 2⟩).2
      (by show (20 : ℤ) < 1000 - 0; norm_num)).1
  · have h := claim4_throttle.2 host0 doc0 100 1 2 (by norm_num)
    norm_num at h
    exact h

/-- C5: the touch rotation is admitted only for exactly two touches on a
non-empty container whose head preview is a cone or a ray — otherwise
nothing changes and the event is not prevented — and, when admitted, sets
the rotation to the absolute angle `atan2(dy, dx) * 180/π`; the points
(0,0), (10,0) yield 0 degrees and (0,0), (0,10) yield 90 degrees. -/
theorem claim5_touch_rotation :
    (∀ (children : List TemplateDoc) (ev : TouchEvent),
      ev.touches.length ≠ 2 → onTouchRotate children ev = (children, false)) ∧
    (∀ (p : TemplateDoc) (rest : List TemplateDoc) (ev : TouchEvent),
      allowedTypes.contains p.t = false →
        onTouchRotate (p :: rest) ev = (p :: rest, false)) ∧
    (∀ (p : TemplateDoc) (rest : List TemplateDoc) (t1 t2 : Touch),
      allowedTypes.contains p.t = true →
        onTouchRotate (p :: rest) ⟨[t1, t2]⟩
          = (({ p with direction := atan2 (t2.clientY - t1.clientY) (t2.clientX - t1.clientX) * (180 / Real.pi) } : TemplateDoc) :: rest, true)) ∧
    (∀ (p : TemplateDoc) (rest : List TemplateDoc), p.t = "cone" →
      onTouchRotate (p :: rest) ⟨[⟨0, 0⟩, ⟨10, 0⟩]⟩
          = (({ p with direction := 0 } : TemplateDoc) :: rest, true) ∧
      onTouchRotate (p :: rest) ⟨[⟨0, 0⟩, ⟨0, 10⟩]⟩
          = (({ p with direction := 90 } : TemplateDoc) :: rest, true)) := by
  refine ⟨?_, ?_, ?_, ?_⟩
  · intro children ev h
    exact onTouchRotate_guard children ev (Or.inl h)
  · intro p rest ev h
    obtain ⟨ts⟩ := ev
    rcases ts with _ | ⟨t1, _ | ⟨t2, _ | ⟨t3, ts1⟩⟩⟩
    · exact onTouchRotate_guard _ _ (Or.inl (by simp))
    · exact onTouchRotate_guard _ _ (Or.inl (by simp))
    · have hm : p.t ∉ allowedTypes := by simpa using h
      simp [onTouchRotate, h, hm]
    · refine onTouchRotate_guard _ _ (Or.inl ?_)
      simp only [List.length_cons]
      omega
  · intro p rest t1 t2 h
    exact onTouchRotate_admitted p rest t1 t2 h
  · intro p rest hpt
    have hc : allowedTypes.contains p.t = true := by rw [hpt]; rfl
    constructor
    · rw [onTouchRotate_admitted p rest _ _ hc]
      norm_num [atan2_zero_ten]
    · rw [onTouchRotate_admitted p rest _ _ hc]
      norm_num [atan2_ten_zero, pi_half_mul_deg]

/-- Witness for C5: on a concrete cone preview, the two-touch gesture with
points (0,0) and (10,0) sets rotation 0, and a one-touch event changes
nothing. -/
theorem claim5_witness :
    onTouchRotate [cone0] ⟨[⟨0, 0⟩, ⟨10, 0⟩]⟩
      = ([({ cone0 with direction := 0 } : TemplateDoc)], true) ∧
    onTouchRotate [cone0] ⟨[⟨0, 0⟩]⟩ = ([cone0], false) :=
  ⟨(claim5_touch_rotation.2.2.2 cone0 [] rfl).1,
   claim5_touch_rotation.1 [cone0] ⟨[⟨0, 0⟩]⟩ (by decide)⟩

/-- Counterexample for C6 as stated: on an active session a context-menu
event does trigger the cancel path, but the native context menu is NOT
prevented — `_onCancelPlacement` neither calls `preventDefault` nor returns
`false` (being `async` it returns a Promise). -/
theorem claim6_counterexample :
    (dispatchContextmenu started0 ⟨false⟩).2.1 = true ∧
    (dispatchContextmenu started0 ⟨false⟩).1.outcome = Settlement.rejectedNone ∧
    (dispatchContextmenu started0 ⟨false⟩).2.2 = false :=
  ⟨rfl, rfl, rfl⟩

/-- C6 (amended): whenever the cancel handler is assigned to the
context-menu on-property, a context-menu event triggers the cancel path and
rejects the pending outcome, but the module itself adds no prevention of
the native menu: the default-prevented status is whatever the event already
carried. -/
theorem claim6_contextmenu_cancel (s : SessionState) (ev : DomEvent)
    (h : s.listeners.oncontextmenu = some HandlerId.cancel) :
    (dispatchContextmenu s ev).2.1 = true ∧
    (dispatchContextmenu s ev).2.2 = ev.defaultPrevented ∧
    (dispatchContextmenu s ev).1.outcome
      = s.outcome.settleWith Settlement.rejectedNone := by
  unfold dispatchContextmenu
  rw [h]
  exact ⟨rfl, by simp [retIsFalse, onCancelPlacement], rfl⟩

/-- Witness for C6 (amended): the concrete started session. -/
theorem claim6_witness :
    (dispatchContextmenu started0 ⟨true⟩).2.1 = true ∧
    (dispatchContextmenu started0 ⟨true⟩).2.2 = true ∧
    (dispatchContextmenu started0 ⟨true⟩).1.outcome = Settlement.rejectedNone := by
  have h := claim6_contextmenu_cancel started0 ⟨true⟩ rfl
  exact ⟨h.1, h.2.1, h.2.2⟩

/-- Counterexample for C8 as stated: a touch-sourced drag-move with NO
active preview is still suppressed by the layer (and likewise drag-cancel),
although the claim requires deferral to the host when no session is
active. -/
theorem claim8_counterexample :
    onDragLeftMove (none : Option TemplateDoc) ⟨"touch", none⟩ = true ∧
    onDragLeftCancel (none : Option TemplateDoc) ⟨"touch", none⟩ = true ∧
    (none : Option TemplateDoc).isSome = false :=
  ⟨rfl, rfl, rfl⟩

/-- C8 (amended): drag-start is suppressed (stashing the preview on the
interaction data) iff the event is touch-sourced AND a preview exists;
drag-move and drag-cancel are suppressed iff the event is touch-sourced,
regardless of whether a preview session is active. -/
theorem claim8_drag_override (p : Option TemplateDoc) (ev : DragEvent) :
    (onDragLeftStart p ev).2 = (p.isSome && ev.pointerType == "touch") ∧
    (onDragLeftStart p ev).1
      = (if p.isSome && ev.pointerType == "touch" then
          ({ ev with interactionDataPreview := p } : DragEvent) else ev) ∧
    onDragLeftMove p ev = (ev.pointerType == "touch") ∧
    onDragLeftCancel p ev = (ev.pointerType == "touch") := by
  refine ⟨?_, ?_, rfl, rfl⟩
  · cases p with
    | none => simp [onDragLeftStart]
    | some q =>
      cases hb : ev.pointerType == "touch"
      · simp [onDragLeftStart, hb]
      · simp [onDragLeftStart, hb]
  · cases p with
    | none => simp [onDragLeftStart]
    | some q =>
      cases hb : ev.pointerType == "touch"
      · simp [onDragLeftStart, hb]
      · simp [onDragLeftStart, hb]
